import Mathlib

/-!
Verification of the client-side prediction request/response pipeline of the
SIH farming-analytics front end.

The development shallowly embeds the JavaScript logic of
- the confidence color bucketing (`getConfidenceColor` in the PredictionCard
  components),
- the `ApiService` prediction methods (`predictYieldFarmerFriendly`,
  `predictYieldEnhanced`, the legacy `predictYield` alias resolver, and
  `predictYieldBatch`),
- the login-form validation (`validateLoginForm`, `validateEmail`,
  `isUserRegistered`) and the login page submit handler,
into Lean.  JavaScript values that can flow through these functions are
modelled by the inductive type `JVal` (undefined, null, booleans, numbers as
rationals, strings, arrays, objects); JS truthiness, the `||` operator,
property access, `String(...)` coercion and `.length` are modelled by
executable functions on `JVal`.  HTTP transport is modelled by an explicit
outcome datum (`Transport`): either the fetch promise rejects, the body fails
to parse as JSON, or a response with `ok`/`status`/parsed JSON body arrives.
Exceptions inside the dispatcher body are modelled with `Except String`; the
top-level dispatcher wraps the body in the catch-all, so it is a total
function, mirroring the try/catch boundary of the source.
-/

/-- A JavaScript runtime value, as far as the pipeline under study can
observe it: `undefined` is the JS undefined (also the result of reading an absent
object key), `jsNull` is `null`, numbers are modelled as rationals
(the pipeline only compares and forwards them; no float rounding is
exercised by the code paths verified here). -/
inductive JVal where
  | undefined : JVal
  | jsNull : JVal
  | bool : Bool → JVal
  | num : ℚ → JVal
  | str : String → JVal
  | arr : List JVal → JVal
  | obj : List (String × JVal) → JVal
  deriving Repr

/-- JS truthiness: `undefined`, `null`, `false`, `0`, `""` are falsy;
every other value (including empty arrays and empty objects) is truthy. -/
def JVal.truthy : JVal → Bool
  | .undefined => false
  | .jsNull => false
  | .bool b => b
  | .num q => q ≠ 0
  | .str s => s ≠ ""
  | .arr _ => true
  | .obj _ => true

/-- The JS `||` operator: returns the left operand if truthy, else the right. -/
def jsOr (a b : JVal) : JVal := if a.truthy then a else b

/-- Property access `o[k]` on a parsed-JSON value: on an object, the value at
the first matching key, or `undefined` when the key is absent; on any
non-object it behaves as an absent property (`undefined`).  (The code under
study only dereferences values it has already guarded to be objects, or
values whose property set does not matter when they are not objects.) -/
def JVal.get (v : JVal) (k : String) : JVal :=
  match v with
  | .obj fields =>
      match fields.find? (fun p => p.1 == k) with
      | some p => p.2
      | none => .undefined
  | _ => .undefined

/-- The JS `x?.length` read used by the pipeline: the length of an array or a
string as a JS number, `undefined` otherwise (numbers, booleans and objects
have no `length`; optional chaining turns `null`/`undefined` receivers into
`undefined`). -/
def JVal.jsLength : JVal → JVal
  | .arr xs => .num xs.length
  | .str s => .num s.length
  | _ => .undefined

/-- The JS comparison `v > 0` as it is used on `?.length` results: true for a
positive number, false for anything else (comparing `undefined` with a number
yields false in JS). -/
def JVal.gtZero : JVal → Bool
  | .num q => 0 < q
  | _ => false

/-! ## Confidence bucketing (`getConfidenceColor`)

From `PredictionCard` (src/unnamed/part_003 lines 37–41) and the identical
copy in src/frontend/src/components/navbar.jsx lines 330–334:

```js
const getConfidenceColor = (confidence) => {
  if (confidence >= 80) return "bg-green-500"
  if (confidence >= 60) return "bg-yellow-500"
  return "bg-red-500"
}
```
-/

/-- Function `getConfidenceColor` from the PredictionCard components, on a
numeric confidence score. -/
def getConfidenceColor (confidence : ℚ) : String :=
  if confidence ≥ 80 then "bg-green-500"
  else if confidence ≥ 60 then "bg-yellow-500"
  else "bg-red-500"

/-- Reading of the three color classes as confidence categories, as the spec
fixes it:
green is the "high" bucket, yellow the "medium" bucket, red the "low"
bucket. -/
def categoryOfColor : String → String
  | "bg-green-500" => "high"
  | "bg-yellow-500" => "medium"
  | _ => "low"

/-- The confidence category derived from a numeric score, via the color
bucketing of `getConfidenceColor`. -/
def confidenceCategory (score : ℚ) : String :=
  categoryOfColor (getConfidenceColor score)

/-- Order of the three confidence categories, for the monotonicity claim. -/
def categoryRank (category : String) : ℕ :=
  if category = "high" then 2
  else if category = "medium" then 1
  else 0

/-! ## JavaScript string coercion

Modelled for the values the pipeline actually coerces: template-literal
interpolation and `new Error(x)` use the abstract `ToString` operation of
JS; `Array.prototype.join` coerces elements but renders `null` and
`undefined` as the empty string. -/

/-- Decimal digits of the fractional part of a rational (which the code only
ever produces from decimal string inputs), with fuel bounding the number of
digits; trailing zeros do not arise because the recursion stops at 0. -/
def fracDigitsString : ℕ → ℚ → String
  | 0, _ => ""
  | fuel + 1, q =>
      if q = 0 then ""
      else
        let d : ℤ := (q * 10).num / ((q * 10).den : ℤ)
        toString d ++ fracDigitsString fuel (q * 10 - (d : ℚ))

/-- JS number-to-string coercion, restricted to the decimal values the
pipeline manipulates: integers print without a decimal point, other values
print their decimal expansion (up to 20 digits, enough for every value the
verified code paths construct). -/
def jsNumToString (q : ℚ) : String :=
  let sign := if q < 0 then "-" else ""
  let a := |q|
  let ip : ℤ := a.num / (a.den : ℤ)
  let frac : ℚ := a - (ip : ℚ)
  if frac = 0 then sign ++ toString ip
  else sign ++ toString ip ++ "." ++ fracDigitsString 20 frac

/-- JS `String(v)` coercion with explicit fuel bounding the array nesting
depth (the recursion is structural on the fuel so that the function reduces
inside the kernel): `undefined` and `null` print their names, booleans print
`true`/`false`, arrays join their elements with commas, plain objects print
`[object Object]`. -/
def jsToStringFuel (fuel : ℕ) : JVal → String
  | .undefined => "undefined"
  | .jsNull => "null"
  | .bool b => if b then "true" else "false"
  | .num q => jsNumToString q
  | .str s => s
  | .arr xs =>
      match fuel with
      | 0 => ""
      | fuel + 1 => String.intercalate "," (xs.map (jsToStringFuel fuel))
  | .obj _ => "[object Object]"

/-- JS `String(v)` coercion.  The fuel only limits the depth of arrays
nested inside arrays; 100 levels is far beyond anything the verified code
paths construct (the pipeline stringifies flat crop lists, climate scalars
and plain objects), and keeping the fuel a literal keeps the function
computable by the kernel. -/
def jsToString (v : JVal) : String := jsToStringFuel 100 v

/-- Element coercion of `Array.prototype.join`: like `String(v)` except that
`null` and `undefined` become the empty string. -/
def jsJoinElem : JVal → String
  | .undefined => ""
  | .jsNull => ""
  | v => jsToString v

/-- JS `xs.join(sep)` on an array. -/
def jsArrJoin (xs : List JVal) (sep : String) : String :=
  String.intercalate sep (xs.map jsJoinElem)

/-- JS strict equality test against the empty string literal, as used by the
validation check `data[field] === ''`. -/
def JVal.isEmptyStr : JVal → Bool
  | .str s => s = ""
  | _ => false

/-- JS `typeof v === 'object'` (true for plain objects, arrays and `null`). -/
def JVal.typeofObject : JVal → Bool
  | .obj _ => true
  | .arr _ => true
  | .jsNull => true
  | _ => false

/-- JS `v !== undefined`. -/
def JVal.isDefined : JVal → Bool
  | .undefined => false
  | _ => true

/-! ## Input records and request bodies

An input record models the plain JS object handed to the `ApiService`
prediction methods; reading an absent key yields `undefined`, which is the
default of every field. The field list is exactly the set of keys those
methods read. -/

/-- Caller-supplied input record for the prediction methods. -/
structure InputRecord where
  location : JVal := .undefined
  crop_name : JVal := .undefined
  year : JVal := .undefined
  nitrogen : JVal := .undefined
  phosphorus : JVal := .undefined
  potassium : JVal := .undefined
  soil_ph : JVal := .undefined
  humidity : JVal := .undefined
  ndvi_avg : JVal := .undefined
  organic_matter : JVal := .undefined
  avg_temp : JVal := .undefined
  rainfall_mm : JVal := .undefined
  pesticide_tonnes : JVal := .undefined
  area : JVal := .undefined
  area_name : JVal := .undefined
  crop : JVal := .undefined
  temperature : JVal := .undefined
  rainfall : JVal := .undefined
  pesticides : JVal := .undefined

/-- Dynamic key lookup `data[field]` for the keys the farmer-friendly
validator iterates over. -/
def InputRecord.lookup (data : InputRecord) : String → JVal
  | "location" => data.location
  | "crop_name" => data.crop_name
  | _ => .undefined

/-- The `requiredFields` list of `predictYieldFarmerFriendly`
(src/unnamed/part_005 line 108). -/
def requiredFieldsFF : List String := ["location", "crop_name"]

/-- The `missingFields` accumulation of `predictYieldFarmerFriendly`
(src/unnamed/part_005 lines 109–115): a forEach push of every required field
whose value is falsy or strictly equal to the empty string. -/
def missingFieldsFF (data : InputRecord) : List String :=
  requiredFieldsFF.foldl
    (fun acc field =>
      if !(data.lookup field).truthy || (data.lookup field).isEmptyStr then
        acc ++ [field]
      else acc)
    []

/-- JSON body of the POST to `/predict/farmer-friendly`
(src/unnamed/part_005 lines 129–144): canonical keys only, every value read
directly off the input record. -/
structure FarmerRequest where
  location : JVal
  crop_name : JVal
  year : JVal
  nitrogen : JVal
  phosphorus : JVal
  potassium : JVal
  soil_ph : JVal
  humidity : JVal
  ndvi_avg : JVal
  organic_matter : JVal
  avg_temp : JVal
  rainfall_mm : JVal
  pesticide_tonnes : JVal

/-- Construction of the farmer-friendly request body from the input record
(src/unnamed/part_005 lines 129–144): a field-by-field pass-through. -/
def farmerRequestBody (data : InputRecord) : FarmerRequest :=
  { location := data.location
    crop_name := data.crop_name
    year := data.year
    nitrogen := data.nitrogen
    phosphorus := data.phosphorus
    potassium := data.potassium
    soil_ph := data.soil_ph
    humidity := data.humidity
    ndvi_avg := data.ndvi_avg
    organic_matter := data.organic_matter
    avg_temp := data.avg_temp
    rainfall_mm := data.rainfall_mm
    pesticide_tonnes := data.pesticide_tonnes }

/-- What `JSON.stringify` emits for one object field: an `undefined` value
makes the key absent from the serialized body, every other value (including
`null`) is kept. -/
def serializedField : JVal → Option JVal
  | .undefined => none
  | v => some v

/-- The enhanced-format record the legacy `predictYield` wrapper builds
(src/unnamed/part_005 lines 302–310) before delegating to
`predictYieldEnhanced`: each canonical field is resolved from the legacy
aliases with the JS `||` chains of the source. -/
structure EnhancedInput where
  location : JVal
  crop_name : JVal
  year : JVal
  avg_temp : JVal
  rainfall_mm : JVal
  pesticide_tonnes : JVal

/-- The alias resolution step of the legacy `predictYield`
(src/unnamed/part_005 lines 302–310). -/
def legacyToEnhanced (data : InputRecord) : EnhancedInput :=
  { location := jsOr (jsOr data.area data.area_name) data.location
    crop_name := jsOr data.crop data.crop_name
    year := data.year
    avg_temp := jsOr data.temperature data.avg_temp
    rainfall_mm := jsOr data.rainfall data.rainfall_mm
    pesticide_tonnes := jsOr data.pesticides data.pesticide_tonnes }

/-- One element of the JSON body of the POST to `/predict/batch`
(src/unnamed/part_005 lines 322–329); `currentYear` stands for
`new Date().getFullYear()`. -/
structure BatchItem where
  area_name : JVal
  crop_name : JVal
  year : JVal
  avg_temp : JVal
  rainfall_mm : JVal
  pesticide_tonnes : JVal

/-- The per-record mapping of `predictYieldBatch`
(src/unnamed/part_005 lines 322–329). -/
def batchItemBody (currentYear : ℚ) (data : InputRecord) : BatchItem :=
  { area_name := jsOr data.area data.area_name
    crop_name := jsOr data.crop data.crop_name
    year := jsOr data.year (.num currentYear)
    avg_temp := jsOr (jsOr data.temperature data.avg_temp) (.num 22)
    rainfall_mm := jsOr (jsOr data.rainfall data.rainfall_mm) (.num 800)
    pesticide_tonnes := jsOr (jsOr data.pesticides data.pesticide_tonnes) (.num 100) }

/-- The full body of the POST to `/predict/batch`
(src/unnamed/part_005 line 322): the per-record mapping over the array. -/
def predictYieldBatchBodies (currentYear : ℚ) (dataArray : List InputRecord) :
    List BatchItem :=
  dataArray.map (batchItemBody currentYear)

/-! ## Transport outcomes and the normalized result shape -/

/-- Outcome of one `fetch` of the dispatcher, seen from inside the `try`
block: the promise rejects (network unreachable, timeout, DNS — carrying the
message of the thrown error), the response body fails to parse as JSON
(`response.json()` rejects), or a response arrives with its `ok` flag,
numeric `status`, and parsed JSON body. -/
inductive Transport where
  | netFail (message : String)
  | jsonFail (message : String)
  | resp (ok : Bool) (status : ℕ) (json : JVal)

/-- One entry of the synthesized `factors` list. -/
structure Factor where
  name : String
  impact : String
  value : String

/-- The plain result object returned by `predictYieldFarmerFriendly`: a field
is `none` when the corresponding key is not part of the returned object
literal, and `some v` when the key is present holding the JS value `v`.
String-typed fields of the object literals are kept as Lean strings. -/
structure PredictResult where
  success : Bool
  error : Option JVal := none
  errorType : Option String := none
  predictedYield : Option JVal := none
  confidence : Option JVal := none
  unit : Option JVal := none
  requiredFields : Option (List String) := none
  yieldTonnesPerHectare : Option JVal := none
  yieldBushelsPerAcre : Option JVal := none
  weatherDataSource : Option JVal := none
  locationGeocoded : Option JVal := none
  weatherFetched : Option JVal := none
  defaultedParameters : Option JVal := none
  autoFetchedWeather : Option JVal := none
  regionalDefaults : Option JVal := none
  factors : Option (List Factor) := none
  recommendations : Option (List String) := none
  suggestedCrops : Option JVal := none
  climateData : Option JVal := none
  location : Option JVal := none
  crop : Option JVal := none

/-! ## The farmer-friendly dispatcher

Embedding of `ApiService.predictYieldFarmerFriendly`
(src/unnamed/part_005 lines 105–225).  The part of the `try` block that runs
after validation is `predictFarmerBody`; a `throw` models both the explicit
`throw new Error(...)` of the legacy-error branch and the runtime TypeError
raised when `.slice(0, 3).join` is applied to a non-array, and the two
failing `Transport` outcomes re-raise as the rejected promise does.  The
top-level function applies the surrounding catch-all. -/

/-- Success-branch normalization of `predictYieldFarmerFriendly`
(src/unnamed/part_005 lines 147–181). -/
def farmerSuccessResult (result : JVal) : PredictResult :=
  let modelInfo := jsOr (result.get "model_info") (.obj [])
  let defaulted := modelInfo.get "defaulted_parameters"
  let autoFetched := modelInfo.get "auto_fetched_weather"
  { success := true
    predictedYield := some (result.get "predicted_yield")
    confidence := some (jsOr (result.get "confidence") (.str "high"))
    unit := some (jsOr (result.get "unit") (.str "hg/ha"))
    yieldTonnesPerHectare := some (modelInfo.get "yield_tonnes_per_hectare")
    yieldBushelsPerAcre := some (modelInfo.get "yield_bushels_per_acre")
    weatherDataSource := some (modelInfo.get "weather_data_source")
    locationGeocoded := some (modelInfo.get "location_geocoded")
    weatherFetched := some (modelInfo.get "weather_fetched")
    defaultedParameters := some (jsOr defaulted (.arr []))
    autoFetchedWeather := some (jsOr autoFetched (.arr []))
    regionalDefaults := some (jsOr (modelInfo.get "regional_defaults_used") (.obj []))
    factors := some
      [ { name := "Weather Data", impact := "positive",
          value := if (modelInfo.get "weather_fetched").truthy
                   then "Auto-Fetched" else "Regional Default" },
        { name := "Soil Parameters", impact := "neutral",
          value := jsToString (jsOr defaulted.jsLength (.num 0)) ++ " defaults applied" },
        { name := "Location", impact := "positive", value := "Successfully Geocoded" } ]
    recommendations := some
      ([ "🌤️ Weather data automatically retrieved from satellite",
         "🌍 Regional soil parameters applied based on your location",
         "📊 Prediction optimized for your specific agricultural region" ]
       ++ (if defaulted.jsLength.gtZero then
             ["⚙️ " ++ jsToString defaulted.jsLength ++ " parameters used regional defaults"]
           else [])
       ++ (if autoFetched.jsLength.gtZero then
             ["🌦️ " ++ jsToString autoFetched.jsLength ++ " weather parameters fetched automatically"]
           else [])) }

/-- First half of the structured 400-error branch of
`predictYieldFarmerFriendly` (src/unnamed/part_005 lines 188–193): the
initial `errorMessage` with the suggestion append, including the runtime
TypeError raised when `suggested_crops` is truthy with positive `length` but
is not an array (only arrays have `join`). -/
def farmerStructuredStep1 (errorDetail : JVal) : Except String JVal :=
  let em0 : JVal := jsOr (errorDetail.get "error") (.str "Validation failed")
  let sc := errorDetail.get "suggested_crops"
  if sc.truthy ∧ sc.jsLength.gtZero then
    match sc with
    | .arr xs =>
        .ok (.str (jsToString em0 ++ "\n\n💡 Suggested crops for "
          ++ jsToString (errorDetail.get "location") ++ ": "
          ++ jsArrJoin (xs.take 3) ", "))
    | _ => .error "errorDetail.suggested_crops.slice(0, 3).join is not a function"
  else
    .ok em0

/-- Structured 400-error branch of `predictYieldFarmerFriendly`
(src/unnamed/part_005 lines 186–212): the climate append to the message and
the surfaced failure object. -/
def farmerStructuredError (errorDetail : JVal) : Except String PredictResult :=
  match farmerStructuredStep1 errorDetail with
  | .error e => .error e
  | .ok em1 =>
      let climate := errorDetail.get "climate_data"
      let em2 : JVal :=
        if climate.truthy ∧
            ((climate.get "temperature").isDefined ∨ (climate.get "rainfall").isDefined) then
          .str (jsToString em1 ++ "\n\n🌤️ Current conditions: "
            ++ jsToString (climate.get "temperature") ++ "°C, "
            ++ jsToString (climate.get "rainfall") ++ "mm rainfall")
        else em1
      .ok
        { success := false
          error := some em2
          errorType := some "validation"
          suggestedCrops := some (jsOr (errorDetail.get "suggested_crops") (.arr []))
          climateData := some (jsOr climate (.obj []))
          location := some (errorDetail.get "location")
          crop := some (errorDetail.get "crop") }

/-- Body of the `try` block of `predictYieldFarmerFriendly` after validation
has passed (src/unnamed/part_005 lines 126–216): issue the request, then
branch on the transport outcome exactly as the source branches on
`response.ok`, `response.status` and the shape of `detail`. -/
def predictFarmerBody (t : Transport) : Except String PredictResult :=
  match t with
  | .netFail msg => .error msg
  | .jsonFail msg => .error msg
  | .resp ok status json =>
      if ok then
        .ok (farmerSuccessResult json)
      else
        let detail := json.get "detail"
        if status = 400 ∧ detail.truthy ∧ detail.typeofObject then
          farmerStructuredError detail
        else
          .error (jsToString (jsOr detail (.str "Farmer-friendly prediction failed")))

/-- Fallback message of the catch-all branch
(src/unnamed/part_005 line 221). -/
def networkFallbackMessage : String :=
  "Network error - unable to connect to farmer prediction service"

/-- A call of the dispatcher: the result object it returns and the list of
HTTP request bodies it issued, in order. -/
structure CallTrace where
  result : PredictResult
  requestsSent : List FarmerRequest

/-- Embedding of `ApiService.predictYieldFarmerFriendly`
(src/unnamed/part_005 lines 105–225): required-field validation first
(returning without any HTTP traffic when a field is missing), then a single
fetch whose outcome is `t`, with every exception of the body converted by the
surrounding catch-all into the network-failure result object. -/
def predictYieldFarmerFriendly (data : InputRecord) (t : Transport) : CallTrace :=
  let missing := missingFieldsFF data
  if missing ≠ [] then
    { result :=
        { success := false
          error := some (.str ("Please provide all required fields: "
            ++ String.intercalate ", " missing))
          predictedYield := some .jsNull
          requiredFields := some requiredFieldsFF }
      requestsSent := [] }
  else
    { result :=
        match predictFarmerBody t with
        | .ok r => r
        | .error msg =>
            { success := false
              error := some (.str (if msg = "" then networkFallbackMessage else msg))
              predictedYield := some .jsNull }
      requestsSent := [farmerRequestBody data] }

/-! ## Login form validation

Embedding of src/unnamed/part_000 (`validateEmail`, `validatePassword`,
`isUserRegistered`, `validateLoginForm`) and of the submit handler of
src/frontend/src/pages/login.jsx (lines 16–31).  The browser-local storage
key `registeredUsers` is modelled as an explicit list parameter. -/

/-- A character matched by the `[^\s@]` class of the email regex: anything
that is neither whitespace nor an at sign. -/
def emailChar (c : Char) : Bool := ¬ c.isWhitespace ∧ c ≠ '@'

/-- Whether a character list has a dot that is neither its first nor its
last element.  Because a dot itself belongs to `[^\s@]`, the regex fragment
`[^\s@]+\.[^\s@]+` matches a string of `emailChar`s exactly when such an
internal dot exists. -/
def hasInternalDot (cs : List Char) : Bool :=
  (List.range cs.length).any
    (fun i => 0 < i ∧ i + 1 < cs.length ∧ cs.get? i = some '.')

/-- Splitting a character list on a separator character (the groups between
occurrences of the separator, in order). -/
def splitChar (sep : Char) : List Char → List (List Char)
  | [] => [[]]
  | c :: cs =>
      let rest := splitChar sep cs
      if c = sep then [] :: rest
      else
        match rest with
        | [] => [[c]]
        | g :: gs => (c :: g) :: gs

/-- The `validateEmail` regex test `/^[^\s@]+@[^\s@]+\.[^\s@]+$/.test(email)`
(src/unnamed/part_000 lines 2–5): exactly one at sign, a nonempty local part
of non-whitespace characters, and a domain of non-whitespace characters with
an internal dot. -/
def validateEmail (email : String) : Bool :=
  match splitChar '@' email.toList with
  | [localPart, domain] =>
      localPart ≠ [] ∧ localPart.all emailChar ∧
      domain.all emailChar ∧ hasInternalDot domain
  | _ => false

/-- The `validatePassword` length check (src/unnamed/part_000 lines 8–10). -/
def validatePassword (password : String) : Bool :=
  6 ≤ password.length

/-- One record of the browser-local `registeredUsers` store. -/
structure RegisteredUser where
  email : String
  password : String

/-- The `isUserRegistered` lookup (src/unnamed/part_000 lines 13–16), with
the parsed `registeredUsers` array passed explicitly. -/
def isUserRegistered (email : String) (registeredUsers : List RegisteredUser) : Bool :=
  registeredUsers.any (fun user => user.email == email)

/-- The `errors` object built by `validateLoginForm`: a field is `none` when
no error was assigned for it. -/
structure LoginErrors where
  email : Option String := none
  password : Option String := none

/-- The return value of `validateLoginForm`. -/
structure LoginValidation where
  isValid : Bool
  errors : LoginErrors

/-- Embedding of `validateLoginForm` (src/unnamed/part_000 lines 25–46):
required/format/registration checks on the email, required/length checks on
the password, and `isValid` exactly when no error key was assigned. -/
def validateLoginForm (email password : String)
    (registeredUsers : List RegisteredUser) : LoginValidation :=
  let emailError : Option String :=
    if email = "" then some "Email is required"
    else if ¬ validateEmail email then some "Please enter a valid email address"
    else if ¬ isUserRegistered email registeredUsers then
      some "No account found with this email. Please sign up first."
    else none
  let passwordError : Option String :=
    if password = "" then some "Password is required"
    else if ¬ validatePassword password then
      some "Password must be at least 6 characters long"
    else none
  { isValid := emailError.isNone && passwordError.isNone
    errors := { email := emailError, password := passwordError } }

/-- Whether the submit handler of the login page reaches the
`ApiService.login` call (src/frontend/src/pages/login.jsx lines 16–31): the
handler returns early, before any backend call, unless validation passed. -/
def handleSubmitIssuesLogin (email password : String)
    (registeredUsers : List RegisteredUser) : Bool :=
  (validateLoginForm email password registeredUsers).isValid

/-! ## Display-layer numeric coercion

The navbar PredictionCard (src/frontend/src/components/navbar.jsx lines
352–357) renders `predictedYield` with `toFixed(1)` when it is already a
number and with `parseFloat(...)` otherwise.  `parseFloatQ` models JS
`parseFloat` on the decimal literals the backend sends: optional sign,
integer digits, optional fraction; trailing junk is ignored as `parseFloat`
ignores it, exponents are not exercised by the code paths verified here, and
`none` stands for NaN. -/

/-- Numeric value of a list of decimal digit characters. -/
def digitsToNat (ds : List Char) : ℕ :=
  ds.foldl (fun n c => 10 * n + (c.toNat - Char.toNat (Char.ofNat 48))) 0

/-- Model of JS `parseFloat` on decimal literals. -/
def parseFloatQ (s : String) : Option ℚ :=
  let cs := s.toList
  let signAndRest : ℚ × List Char :=
    match cs with
    | c :: rest =>
        if c = Char.ofNat 45 then (-1, rest)
        else if c = Char.ofNat 43 then (1, rest)
        else (1, cs)
    | [] => (1, cs)
  let sign := signAndRest.1
  let body := signAndRest.2
  let intDigits := body.takeWhile Char.isDigit
  let rest := body.dropWhile Char.isDigit
  let fracDigits : List Char :=
    match rest with
    | c :: r => if c = Char.ofNat 46 then r.takeWhile Char.isDigit else []
    | [] => []
  if intDigits = [] ∧ fracDigits = [] then none
  else
    some (sign * ((digitsToNat intDigits : ℚ)
      + (digitsToNat fracDigits : ℚ) / ((10 : ℚ) ^ fracDigits.length)))

/-- The numeric value the PredictionCard renders for a `predictedYield`
value: the number itself when it is a number, otherwise the `parseFloat` of
its string coercion (src/frontend/src/components/navbar.jsx lines 352–356). -/
def displayedYieldValue : JVal → Option ℚ
  | .num q => some q
  | v => parseFloatQ (jsToString v)

/-! ## Absence of a field value

The spec treats `undefined`, `null` and the empty string as an absent field
value; `stringish` delimits the values a string-typed form field can
actually hold (present string, or one of the two absence markers), on which
the JS falsy test used by the validator coincides with absence. -/

/-- A value that the spec counts as an absent required field: `undefined`,
`null`, or the empty string. -/
def JVal.absent : JVal → Bool
  | .undefined => true
  | .jsNull => true
  | .str s => s = ""
  | _ => false

/-- A value of a string-typed form field: a string or an absence marker. -/
def JVal.stringish : JVal → Bool
  | .undefined => true
  | .jsNull => true
  | .str _ => true
  | _ => false

/-- A value the caller did not supply for an optional override: `undefined`
(key never set) or `null` (key set to null). -/
def JVal.unsupplied : JVal → Bool
  | .undefined => true
  | .jsNull => true
  | _ => false

/-! ## Concrete example inputs used by witnesses and counterexamples -/

/-- Input with an empty `location` and a supplied crop (the spec scenario
`{location:"", crop:"Wheat"}` expressed with the farmer-friendly keys). -/
def exMissingLocation : InputRecord :=
  { location := .str "", crop_name := .str "Wheat" }

/-- A legacy-named input that also carries the canonical `crop_name`, to
observe which of the two wins in the alias resolution. -/
def exLegacyAndCanonical : InputRecord :=
  { area := .str "India", crop := .str "Rice", crop_name := .str "Wheat",
    temperature := .str "25.5", rainfall := .str "800", pesticides := .str "120" }

/-- A legacy-named batch record that supplies no temperature, rainfall or
pesticides value. -/
def exBatchNoOverrides : InputRecord :=
  { area := .str "India", crop := .str "Rice", year := .num 2025 }

/-- A valid farmer-friendly input (both required fields supplied). -/
def exValidInput : InputRecord :=
  { location := .str "India", crop_name := .str "Rice" }

/-- A structured validation detail as the backend sends it: nested `detail`
object with `error`, `suggested_crops` and `climate_data`. -/
def exStructuredDetailBody : JVal :=
  .obj [("detail", .obj
    [ ("error", .str "Crop not suitable for this location"),
      ("suggested_crops", .arr [.str "Maize", .str "Barley"]),
      ("climate_data", .obj [("temperature", .num 31), ("rainfall", .num 420)]),
      ("location", .str "India"),
      ("crop", .str "Rice") ])]

/-- The 2xx payload of the spec scenario: `predicted_yield` sent as the
string "3976.10". -/
def exStringYieldBody : JVal :=
  .obj [ ("predicted_yield", .str "3976.10"),
         ("confidence", .str "high"),
         ("unit", .str "hg/ha") ]

/-- A 2xx payload carrying neither a `confidence` nor a `unit` field. -/
def exBareYieldBody : JVal :=
  .obj [("predicted_yield", .num 1234)]

/-- A 2xx payload with a `unit` field but no `confidence` field. -/
def exUnitOnlyBody : JVal :=
  .obj [("predicted_yield", .num 1234), ("unit", .str "kg/ha")]

/-! # Theorems -/

/-- Truthy values are never the empty string. -/
theorem truthy_not_emptyStr (v : JVal) (h : v.truthy = true) : v.isEmptyStr = false := by
  cases v with
  | str s =>
      simp [JVal.truthy] at h
      simp [JVal.isEmptyStr, h]
  | _ => rfl

/-- On string-typed field values, the falsy-or-empty test of the validator
coincides with the absence notion of the spec. -/
theorem falsy_iff_absent_of_stringish (v : JVal) (h : v.stringish = true) :
    (!v.truthy || v.isEmptyStr) = v.absent := by
  cases v with
  | str s => by_cases hs : s = "" <;> simp [JVal.truthy, JVal.isEmptyStr, JVal.absent, hs]
  | undefined => rfl
  | jsNull => rfl
  | bool b => simp [JVal.stringish] at h
  | num q => simp [JVal.stringish] at h
  | arr xs => simp [JVal.stringish] at h
  | obj fields => simp [JVal.stringish] at h

/-- The forEach/push accumulation of the validator computes the filter of the
required-field list by the falsy-or-empty test. -/
theorem missingFieldsFF_eq_filter (data : InputRecord) :
    missingFieldsFF data =
      requiredFieldsFF.filter
        (fun f => !(data.lookup f).truthy || (data.lookup f).isEmptyStr) := by
  simp only [missingFieldsFF, requiredFieldsFF, List.foldl, List.filter]
  by_cases h1 : (!(data.lookup "location").truthy || (data.lookup "location").isEmptyStr) = true <;>
    by_cases h2 : (!(data.lookup "crop_name").truthy || (data.lookup "crop_name").isEmptyStr) = true <;>
      simp [h1, h2]
/-- C1: the confidence bucketing maps a score ≥ 80 to "high", a score in
[60, 80) to "medium", and any lower score to "low"; in particular 79 maps to
"medium", 80 to "high", 59 to "low", 60 to "medium"; and the induced category
is monotonic in the score. -/
theorem confidence_bucketing_boundary_exact_and_monotonic :
    (∀ s : ℚ, 80 ≤ s → confidenceCategory s = "high") ∧
    (∀ s : ℚ, 60 ≤ s → s < 80 → confidenceCategory s = "medium") ∧
    (∀ s : ℚ, s < 60 → confidenceCategory s = "low") ∧
    confidenceCategory 79 = "medium" ∧
    confidenceCategory 80 = "high" ∧
    confidenceCategory 59 = "low" ∧
    confidenceCategory 60 = "medium" ∧
    (∀ s t : ℚ, s ≤ t →
      categoryRank (confidenceCategory s) ≤ categoryRank (confidenceCategory t)) := by
  have hhigh : ∀ s : ℚ, 80 ≤ s → confidenceCategory s = "high" := by
    intro s hs
    simp [confidenceCategory, getConfidenceColor, categoryOfColor, hs]
  have hmed : ∀ s : ℚ, 60 ≤ s → s < 80 → confidenceCategory s = "medium" := by
    intro s h60 h80
    have h : ¬ (80 : ℚ) ≤ s := not_le.mpr h80
    simp [confidenceCategory, getConfidenceColor, categoryOfColor, h, h60]
  have hlow : ∀ s : ℚ, s < 60 → confidenceCategory s = "low" := by
    intro s hs
    have h80 : ¬ (80 : ℚ) ≤ s := not_le.mpr (hs.trans (by norm_num))
    have h60 : ¬ (60 : ℚ) ≤ s := not_le.mpr hs
    simp [confidenceCategory, getConfidenceColor, categoryOfColor, h80, h60]
  refine ⟨hhigh, hmed, hlow, hmed 79 (by norm_num) (by norm_num), hhigh 80 (by norm_num),
    hlow 59 (by norm_num), hmed 60 (by norm_num) (by norm_num), ?_⟩
  intro s t hst
  by_cases h80s : (80 : ℚ) ≤ s
  · rw [hhigh s h80s, hhigh t (h80s.trans hst)]
  · by_cases h60s : (60 : ℚ) ≤ s
    · rw [hmed s h60s (not_le.mp h80s)]
      by_cases h80t : (80 : ℚ) ≤ t
      · rw [hhigh t h80t]; simp [categoryRank]
      · rw [hmed t (h60s.trans hst) (not_le.mp h80t)]
    · rw [hlow s (not_le.mp h60s)]
      simp [categoryRank]

/-- Witness for C1: the universal parts of the bucketing theorem applied at
the concrete scores 59, 60, 79, 80 with the hypotheses discharged. -/
theorem confidence_bucketing_witness :
    confidenceCategory 80 = "high" ∧
    confidenceCategory 79 = "medium" ∧
    confidenceCategory 59 = "low" ∧
    categoryRank (confidenceCategory 59) ≤ categoryRank (confidenceCategory 80) :=
  ⟨confidence_bucketing_boundary_exact_and_monotonic.1 80 (by norm_num),
   (confidence_bucketing_boundary_exact_and_monotonic.2.1) 79 (by norm_num) (by norm_num),
   (confidence_bucketing_boundary_exact_and_monotonic.2.2.1) 59 (by norm_num),
   (confidence_bucketing_boundary_exact_and_monotonic.2.2.2.2.2.2.2) 59 80 (by norm_num)⟩

/-- C2: if a required field (location or crop name) of the input record is
undefined, null, or the empty string, `predictYieldFarmerFriendly` returns a
validation failure whose message lists exactly the required fields that are
absent, and it issues no HTTP request.  The `stringish` hypotheses say the
two form fields hold string-typed values or absence markers, which is the
domain the claim quantifies over. -/
theorem missing_required_fields_block_dispatch
    (data : InputRecord) (t : Transport)
    (hl : data.location.stringish = true) (hc : data.crop_name.stringish = true)
    (hmiss : data.location.absent = true ∨ data.crop_name.absent = true) :
    (predictYieldFarmerFriendly data t).result.success = false ∧
    (predictYieldFarmerFriendly data t).requestsSent = [] ∧
    (predictYieldFarmerFriendly data t).result.error =
      some (.str ("Please provide all required fields: " ++ String.intercalate ", "
        (requiredFieldsFF.filter (fun f => (data.lookup f).absent)))) := by
  have hm : missingFieldsFF data =
      requiredFieldsFF.filter (fun f => (data.lookup f).absent) := by
    rw [missingFieldsFF_eq_filter]
    refine List.filter_congr ?_
    intro f hf
    simp only [requiredFieldsFF, List.mem_cons, List.mem_singleton] at hf
    rcases hf with rfl | rfl | hf
    · exact falsy_iff_absent_of_stringish _ (by simpa [InputRecord.lookup] using hl)
    · exact falsy_iff_absent_of_stringish _ (by simpa [InputRecord.lookup] using hc)
    · exact absurd hf (List.not_mem_nil f)
  have hne : missingFieldsFF data ≠ [] := by
    rw [hm]
    rcases hmiss with h | h
    · simp [requiredFieldsFF, List.filter, InputRecord.lookup, h]
    · by_cases hL : data.location.absent = true <;>
        simp [requiredFieldsFF, List.filter, InputRecord.lookup, h, hL]
  simp only [predictYieldFarmerFriendly]
  rw [if_pos hne, hm]
  exact ⟨rfl, rfl, rfl⟩

/-- Witness for C2: the spec scenario (empty location, supplied crop) blocks
the dispatch, with the hypotheses of the theorem discharged concretely. -/
theorem missing_required_fields_block_dispatch_witness :
    exMissingLocation.location.stringish = true ∧
    exMissingLocation.location.absent = true ∧
    ((predictYieldFarmerFriendly exMissingLocation (.netFail "boom")).result.success = false ∧
     (predictYieldFarmerFriendly exMissingLocation (.netFail "boom")).requestsSent = [] ∧
     (predictYieldFarmerFriendly exMissingLocation (.netFail "boom")).result.error =
       some (.str ("Please provide all required fields: " ++ String.intercalate ", "
         (requiredFieldsFF.filter (fun f => (exMissingLocation.lookup f).absent))))) :=
  ⟨by decide, by decide,
   missing_required_fields_block_dispatch exMissingLocation (.netFail "boom")
     (by decide) (by decide) (Or.inl (by decide))⟩

/-- C3 counterexample: on the input that supplies both the legacy alias
`crop` ("Rice") and the canonical `crop_name` ("Wheat"), the alias resolver
emits the legacy value, so the claim that the canonical value is preferred
fails on this input. -/
theorem alias_resolver_not_canonical_preferring_counterexample :
    (legacyToEnhanced exLegacyAndCanonical).crop_name = JVal.str "Rice" ∧
    (legacyToEnhanced exLegacyAndCanonical).crop_name ≠ JVal.str "Wheat" := by
  constructor
  · rfl
  · intro h
    rw [show (legacyToEnhanced exLegacyAndCanonical).crop_name = JVal.str "Rice" from rfl] at h
    simp at h

/-- C3 (amended): the alias resolution step of the legacy `predictYield`
produces a record carrying only canonical field names, each value preserved
exactly as supplied; when both a canonical field and its legacy alias are
supplied (truthy), the legacy value is preferred, and the canonical value is
used only when no legacy alias is truthy. -/
theorem alias_resolver_canonical_names_legacy_preference (data : InputRecord) :
    ((legacyToEnhanced data).year = data.year) ∧
    (data.crop.truthy = true → (legacyToEnhanced data).crop_name = data.crop) ∧
    (data.crop.truthy = false → (legacyToEnhanced data).crop_name = data.crop_name) ∧
    (data.area.truthy = true → (legacyToEnhanced data).location = data.area) ∧
    (data.area.truthy = false → data.area_name.truthy = true →
      (legacyToEnhanced data).location = data.area_name) ∧
    (data.area.truthy = false → data.area_name.truthy = false →
      (legacyToEnhanced data).location = data.location) ∧
    (data.temperature.truthy = true → (legacyToEnhanced data).avg_temp = data.temperature) ∧
    (data.temperature.truthy = false → (legacyToEnhanced data).avg_temp = data.avg_temp) ∧
    (data.rainfall.truthy = true → (legacyToEnhanced data).rainfall_mm = data.rainfall) ∧
    (data.rainfall.truthy = false → (legacyToEnhanced data).rainfall_mm = data.rainfall_mm) ∧
    (data.pesticides.truthy = true →
      (legacyToEnhanced data).pesticide_tonnes = data.pesticides) ∧
    (data.pesticides.truthy = false →
      (legacyToEnhanced data).pesticide_tonnes = data.pesticide_tonnes) := by
  refine ⟨rfl, ?_, ?_, ?_, ?_, ?_, ?_, ?_, ?_, ?_, ?_, ?_⟩ <;>
    · intros
      simp_all [legacyToEnhanced, jsOr]

/-- Witness for C3: the amended preference facts applied to the concrete
mixed input, with the truthiness hypotheses discharged. -/
theorem alias_resolver_canonical_names_legacy_preference_witness :
    exLegacyAndCanonical.crop.truthy = true ∧
    (legacyToEnhanced exLegacyAndCanonical).crop_name = exLegacyAndCanonical.crop ∧
    (legacyToEnhanced exLegacyAndCanonical).avg_temp = exLegacyAndCanonical.temperature :=
  ⟨by decide,
   (alias_resolver_canonical_names_legacy_preference exLegacyAndCanonical).2.1 (by decide),
   (alias_resolver_canonical_names_legacy_preference
      exLegacyAndCanonical).2.2.2.2.2.2.1 (by decide)⟩

/-- C4 counterexample: a batch record that supplies no temperature, rainfall
or pesticides value is serialized with the substitute numeric defaults 22,
800 and 100 — not as null/absent — so the claim fails on the batch request
builder. -/
theorem batch_body_coerces_unset_overrides_counterexample :
    exBatchNoOverrides.temperature = JVal.undefined ∧
    exBatchNoOverrides.avg_temp = JVal.undefined ∧
    (batchItemBody 2025 exBatchNoOverrides).avg_temp = JVal.num 22 ∧
    (batchItemBody 2025 exBatchNoOverrides).rainfall_mm = JVal.num 800 ∧
    (batchItemBody 2025 exBatchNoOverrides).pesticide_tonnes = JVal.num 100 ∧
    serializedField (batchItemBody 2025 exBatchNoOverrides).avg_temp ≠ none ∧
    serializedField (batchItemBody 2025 exBatchNoOverrides).avg_temp ≠ some JVal.jsNull := by
  refine ⟨rfl, rfl, rfl, rfl, rfl, ?_, ?_⟩ <;>
    · rw [show (batchItemBody 2025 exBatchNoOverrides).avg_temp = JVal.num 22 from rfl]
      simp [serializedField]

/-- C4 (amended): the farmer-friendly request builder passes every optional
agronomic override through unchanged, so an unsupplied (`undefined`/`null`)
override reaches the serialized body as absent or null, never as a
substitute number; the dispatcher sends exactly that body (or nothing); but
the batch request builder substitutes the numeric defaults 22 (avg_temp),
800 (rainfall_mm) and 100 (pesticide_tonnes) when no value is supplied. -/
theorem optional_overrides_passthrough_amended
    (data : InputRecord) (currentYear : ℚ) (t : Transport) :
    ((farmerRequestBody data).nitrogen = data.nitrogen ∧
     (farmerRequestBody data).phosphorus = data.phosphorus ∧
     (farmerRequestBody data).potassium = data.potassium ∧
     (farmerRequestBody data).soil_ph = data.soil_ph ∧
     (farmerRequestBody data).humidity = data.humidity ∧
     (farmerRequestBody data).ndvi_avg = data.ndvi_avg ∧
     (farmerRequestBody data).organic_matter = data.organic_matter ∧
     (farmerRequestBody data).avg_temp = data.avg_temp ∧
     (farmerRequestBody data).rainfall_mm = data.rainfall_mm ∧
     (farmerRequestBody data).pesticide_tonnes = data.pesticide_tonnes) ∧
    (∀ v : JVal, v.unsupplied = true →
      serializedField v = none ∨ serializedField v = some JVal.jsNull) ∧
    ((predictYieldFarmerFriendly data t).requestsSent = [] ∨
     (predictYieldFarmerFriendly data t).requestsSent = [farmerRequestBody data]) ∧
    (data.temperature.truthy = false → data.avg_temp.truthy = false →
      (batchItemBody currentYear data).avg_temp = JVal.num 22) ∧
    (data.rainfall.truthy = false → data.rainfall_mm.truthy = false →
      (batchItemBody currentYear data).rainfall_mm = JVal.num 800) ∧
    (data.pesticides.truthy = false → data.pesticide_tonnes.truthy = false →
      (batchItemBody currentYear data).pesticide_tonnes = JVal.num 100) := by
  refine ⟨⟨rfl, rfl, rfl, rfl, rfl, rfl, rfl, rfl, rfl, rfl⟩, ?_, ?_, ?_, ?_, ?_⟩
  · intro v hv
    cases v <;> simp_all [JVal.unsupplied, serializedField]
  · by_cases h : missingFieldsFF data ≠ []
    · left
      simp only [predictYieldFarmerFriendly]
      rw [if_pos h]
    · right
      simp only [predictYieldFarmerFriendly]
      rw [if_neg h]
  · intro h1 h2
    simp [batchItemBody, jsOr, h1, h2]
  · intro h1 h2
    simp [batchItemBody, jsOr, h1, h2]
  · intro h1 h2
    simp [batchItemBody, jsOr, h1, h2]

/-- Witness for C4: the pass-through and the batch defaults observed on the
concrete batch record with no supplied overrides. -/
theorem optional_overrides_passthrough_amended_witness :
    (farmerRequestBody exBatchNoOverrides).nitrogen = exBatchNoOverrides.nitrogen ∧
    (serializedField JVal.undefined = none ∨ serializedField JVal.undefined = some JVal.jsNull) ∧
    (batchItemBody 2025 exBatchNoOverrides).avg_temp = JVal.num 22 :=
  ⟨(optional_overrides_passthrough_amended exBatchNoOverrides 2025 (.netFail "x")).1.1,
   (optional_overrides_passthrough_amended exBatchNoOverrides 2025
      (.netFail "x")).2.1 JVal.undefined rfl,
   (optional_overrides_passthrough_amended exBatchNoOverrides 2025
      (.netFail "x")).2.2.2.1 rfl rfl⟩

/-- With both required fields truthy, the validator finds nothing missing. -/
theorem missingFieldsFF_nil_of_truthy (data : InputRecord)
    (hl : data.location.truthy = true) (hc : data.crop_name.truthy = true) :
    missingFieldsFF data = [] := by
  have h1 := truthy_not_emptyStr _ hl
  have h2 := truthy_not_emptyStr _ hc
  simp [missingFieldsFF, requiredFieldsFF, InputRecord.lookup, hl, hc, h1, h2]

/-- With both required fields truthy, the dispatcher issues exactly one
request with the farmer-friendly body and resolves its result from the
transport outcome through the catch-all. -/
theorem predictYFF_valid (data : InputRecord) (t : Transport)
    (hl : data.location.truthy = true) (hc : data.crop_name.truthy = true) :
    predictYieldFarmerFriendly data t =
      { result :=
          match predictFarmerBody t with
          | .ok r => r
          | .error msg =>
              { success := false
                error := some (.str (if msg = "" then networkFallbackMessage else msg))
                predictedYield := some .jsNull }
        requestsSent := [farmerRequestBody data] } := by
  simp only [predictYieldFarmerFriendly]
  rw [if_neg (by simp [missingFieldsFF_nil_of_truthy data hl hc])]

/-- C5: on a transport-level failure (rejected fetch or failing body parse,
with any thrown message), the dispatcher swallows the exception and returns
a network-kind failure: `success` false, `predictedYield` null, the error
message taken from the thrown error (or the fixed network fallback when that
message is empty), and exactly one request was issued — no retry. -/
theorem transport_failure_yields_network_failure
    (data : InputRecord) (msg : String) (t : Transport)
    (hl : data.location.truthy = true) (hc : data.crop_name.truthy = true)
    (ht : t = .netFail msg ∨ t = .jsonFail msg) :
    (predictYieldFarmerFriendly data t).result.success = false ∧
    (predictYieldFarmerFriendly data t).result.predictedYield = some JVal.jsNull ∧
    (predictYieldFarmerFriendly data t).result.error =
      some (.str (if msg = "" then networkFallbackMessage else msg)) ∧
    (predictYieldFarmerFriendly data t).requestsSent.length = 1 := by
  rcases ht with rfl | rfl <;>
    · rw [predictYFF_valid data _ hl hc]
      exact ⟨rfl, rfl, rfl, rfl⟩

/-- Witness for C5: a rejected fetch with the browser message
"Failed to fetch" on a valid input. -/
theorem transport_failure_yields_network_failure_witness :
    exValidInput.location.truthy = true ∧
    (predictYieldFarmerFriendly exValidInput (.netFail "Failed to fetch")).result.success
      = false ∧
    (predictYieldFarmerFriendly exValidInput (.netFail "Failed to fetch")).result.error
      = some (.str "Failed to fetch") ∧
    (predictYieldFarmerFriendly exValidInput
        (.netFail "Failed to fetch")).requestsSent.length = 1 := by
  have h := transport_failure_yields_network_failure exValidInput "Failed to fetch"
    (.netFail "Failed to fetch") (by decide) (by decide) (Or.inl rfl)
  refine ⟨by decide, h.1, ?_, h.2.2.2⟩
  rw [h.2.2.1]
  simp

/-- A structured detail whose `suggested_crops` is an array produces the
surfaced failure object: the exact crops array, the climate payload, and the
`validation` error type. -/
theorem farmerStructuredError_arr (detail : JVal) (cs : List JVal)
    (hsc : detail.get "suggested_crops" = JVal.arr cs) :
    ∃ em, farmerStructuredError detail = .ok
      { success := false
        error := some em
        errorType := some "validation"
        suggestedCrops := some (JVal.arr cs)
        climateData := some (jsOr (detail.get "climate_data") (.obj []))
        location := some (detail.get "location")
        crop := some (detail.get "crop") } := by
  simp only [farmerStructuredError, farmerStructuredStep1, hsc]
  by_cases hg : (JVal.arr cs).truthy = true ∧ (JVal.arr cs).jsLength.gtZero = true
  · rw [if_pos hg]
    exact ⟨_, rfl⟩
  · rw [if_neg hg]
    exact ⟨_, rfl⟩

/-- C6 (amended): a structured nested `detail` object is surfaced as
first-class fields on the failure only for HTTP status 400: on a 400
response whose detail carries `suggested_crops` as an array, the result
exposes exactly that array (in order), the `climate_data` payload and the
`validation` error type; on any 4xx response whose `detail` is a non-empty
flat string, the failure message is that string verbatim.  (The
counterexample shows a non-400 status with a structured detail collapses to
the message "[object Object]" with no surfaced fields.) -/
theorem structured_400_surfaced_flat_verbatim_amended
    (data : InputRecord)
    (hl : data.location.truthy = true) (hc : data.crop_name.truthy = true) :
    (∀ json cs,
      (json.get "detail").truthy = true →
      (json.get "detail").typeofObject = true →
      (json.get "detail").get "suggested_crops" = JVal.arr cs →
      ((predictYieldFarmerFriendly data (.resp false 400 json)).result.success = false ∧
       (predictYieldFarmerFriendly data (.resp false 400 json)).result.errorType
         = some "validation" ∧
       (predictYieldFarmerFriendly data (.resp false 400 json)).result.suggestedCrops
         = some (JVal.arr cs) ∧
       (predictYieldFarmerFriendly data (.resp false 400 json)).result.climateData
         = some (jsOr ((json.get "detail").get "climate_data") (.obj [])))) ∧
    (∀ (status : ℕ) (json : JVal) (s : String),
      400 ≤ status → status ≤ 499 →
      json.get "detail" = JVal.str s → s ≠ "" →
      ((predictYieldFarmerFriendly data (.resp false status json)).result.success = false ∧
       (predictYieldFarmerFriendly data (.resp false status json)).result.error
         = some (JVal.str s))) := by
  constructor
  · intro json cs hdt hdo hsc
    rw [predictYFF_valid data _ hl hc]
    obtain ⟨em, hem⟩ := farmerStructuredError_arr (json.get "detail") cs hsc
    have hcnd : True ∧ (json.get "detail").truthy = true ∧
        (json.get "detail").typeofObject = true := ⟨trivial, hdt, hdo⟩
    simp only [predictFarmerBody, Bool.false_eq_true, if_false]
    rw [if_pos hcnd, hem]
    exact ⟨rfl, rfl, rfl, rfl⟩
  · intro status json s _ _ hdet hs
    rw [predictYFF_valid data _ hl hc]
    have hto : (json.get "detail").typeofObject = false := by
      rw [hdet]; rfl
    have hcond : ¬ (status = 400 ∧ (json.get "detail").truthy = true ∧
        (json.get "detail").typeofObject = true) := by
      rintro ⟨-, -, h⟩
      rw [hto] at h
      exact Bool.false_ne_true h
    have hjsOr : jsOr (json.get "detail") (.str "Farmer-friendly prediction failed")
        = JVal.str s := by
      rw [hdet]
      simp [jsOr, JVal.truthy, hs]
    simp only [predictFarmerBody, Bool.false_eq_true, if_false]
    rw [if_neg hcond, hjsOr]
    refine ⟨rfl, ?_⟩
    show some (JVal.str (if jsToString (JVal.str s) = "" then networkFallbackMessage
      else jsToString (JVal.str s))) = some (JVal.str s)
    simp only [jsToString, jsToStringFuel]
    rw [if_neg hs]

/-- Witness for C6: the concrete 400 response with
`suggested_crops: ["Maize","Barley"]` surfaces exactly those two crops, in
order, with the hypotheses of the amended theorem discharged. -/
theorem structured_400_surfaced_flat_verbatim_amended_witness :
    (exStructuredDetailBody.get "detail").truthy = true ∧
    (predictYieldFarmerFriendly exValidInput
        (.resp false 400 exStructuredDetailBody)).result.suggestedCrops
      = some (JVal.arr [.str "Maize", .str "Barley"]) ∧
    (predictYieldFarmerFriendly exValidInput
        (.resp false 400 exStructuredDetailBody)).result.errorType
      = some "validation" := by
  have h := (structured_400_surfaced_flat_verbatim_amended exValidInput
      (by decide) (by decide)).1 exStructuredDetailBody
      [.str "Maize", .str "Barley"] rfl rfl rfl
  exact ⟨rfl, h.2.2.1, h.2.1⟩

/-- C6 counterexample: the same structured nested detail arriving with HTTP
status 422 (a 4xx status other than 400) is not surfaced at all — the
dispatcher collapses it to the message "[object Object]" and exposes no
`suggestedCrops` field — so the claim quantifying over every 4xx response
fails at this input. -/
theorem structured_4xx_not_surfaced_counterexample :
    (predictYieldFarmerFriendly exValidInput
        (.resp false 422 exStructuredDetailBody)).result.suggestedCrops = none ∧
    (predictYieldFarmerFriendly exValidInput
        (.resp false 422 exStructuredDetailBody)).result.error
      = some (.str "[object Object]") ∧
    (exStructuredDetailBody.get "detail").get "suggested_crops"
      = JVal.arr [.str "Maize", .str "Barley"] := by
  exact ⟨rfl, rfl, rfl⟩

/-- C7 counterexample: on the 2xx payload of the spec scenario, where the
backend sends `predicted_yield` as the string "3976.10", the result carries
the string through unchanged — it is not the number 3976.10 — so the claim
that `predictedYield` is always a (finite, nonnegative) number after
normalization fails at this input. -/
theorem success_yield_string_passthrough_counterexample :
    (predictYieldFarmerFriendly exValidInput
        (.resp true 200 exStringYieldBody)).result.predictedYield
      = some (JVal.str "3976.10") ∧
    JVal.str "3976.10" ≠ JVal.num (39761 / 10) := by
  refine ⟨rfl, ?_⟩
  intro h
  exact JVal.noConfusion h

/-- C7 (amended): on every 2xx response the success result carries the raw
`predicted_yield` of the backend payload through unchanged (no numeric
normalization happens in the dispatcher); on the scenario payload the result
holds the string "3976.10" with unit "hg/ha" and confidence "high", and the
numeric coercion to 3976.1 happens only in the display layer
(`parseFloat` in the navbar PredictionCard). -/
theorem success_yield_passthrough_amended
    (data : InputRecord) (status : ℕ) (json : JVal)
    (hl : data.location.truthy = true) (hc : data.crop_name.truthy = true) :
    (predictYieldFarmerFriendly data (.resp true status json)).result.success = true ∧
    (predictYieldFarmerFriendly data (.resp true status json)).result.predictedYield
      = some (json.get "predicted_yield") ∧
    ((predictYieldFarmerFriendly exValidInput
        (.resp true 200 exStringYieldBody)).result.predictedYield
      = some (JVal.str "3976.10") ∧
     (predictYieldFarmerFriendly exValidInput
        (.resp true 200 exStringYieldBody)).result.confidence
      = some (JVal.str "high") ∧
     (predictYieldFarmerFriendly exValidInput
        (.resp true 200 exStringYieldBody)).result.unit
      = some (JVal.str "hg/ha") ∧
     displayedYieldValue (JVal.str "3976.10") = some (39761 / 10)) := by
  rw [predictYFF_valid data _ hl hc]
  refine ⟨rfl, rfl, rfl, rfl, rfl, ?_⟩
  have hd : displayedYieldValue (JVal.str "3976.10")
      = some ((1 : ℚ) * (((digitsToNat ['3', '9', '7', '6'] : ℕ) : ℚ)
          + ((digitsToNat ['1', '0'] : ℕ) : ℚ) / (10 : ℚ) ^ (2 : ℕ))) := rfl
  have h3 : digitsToNat ['3', '9', '7', '6'] = 3976 := by decide
  have h4 : digitsToNat ['1', '0'] = 10 := by decide
  rw [hd, h3, h4]
  norm_num

/-- Witness for C7: the amended pass-through applied at the scenario input. -/
theorem success_yield_passthrough_amended_witness :
    exValidInput.location.truthy = true ∧
    (predictYieldFarmerFriendly exValidInput
        (.resp true 200 exStringYieldBody)).result.predictedYield
      = some (exStringYieldBody.get "predicted_yield") :=
  ⟨by decide,
   (success_yield_passthrough_amended exValidInput 200 exStringYieldBody
      (by decide) (by decide)).2.1⟩

/-- Any `ok` outcome of the structured-error branch has the failure shape:
`success` false, an error message present, and no yield fields. -/
theorem farmerStructuredError_ok_shape (detail : JVal) (r : PredictResult)
    (h : farmerStructuredError detail = .ok r) :
    r.success = false ∧ r.error.isSome = true ∧ r.predictedYield = none ∧
    r.confidence = none ∧ r.unit = none := by
  simp only [farmerStructuredError] at h
  cases hstep : farmerStructuredStep1 detail with
  | error e =>
      rw [hstep] at h
      exact absurd h (by simp)
  | ok em1 =>
      rw [hstep] at h
      simp only [Except.ok.injEq] at h
      subst h
      exact ⟨rfl, rfl, rfl, rfl, rfl⟩

/-- Any `ok` outcome of the post-validation body is either the success shape
(`success` true, no error, yield fields present) or the failure shape
(`success` false, error present, no yield fields). -/
theorem predictFarmerBody_ok_shape (t : Transport) (r : PredictResult)
    (h : predictFarmerBody t = .ok r) :
    (r.success = true ∧ r.error = none ∧ r.predictedYield.isSome = true ∧
     r.confidence.isSome = true ∧ r.unit.isSome = true) ∨
    (r.success = false ∧ r.error.isSome = true ∧ r.predictedYield = none ∧
     r.confidence = none ∧ r.unit = none) := by
  cases t with
  | netFail m => exact absurd h (by simp [predictFarmerBody])
  | jsonFail m => exact absurd h (by simp [predictFarmerBody])
  | resp ok status json =>
      cases ok with
      | true =>
          left
          simp only [predictFarmerBody, if_true, Except.ok.injEq] at h
          subst h
          exact ⟨rfl, rfl, rfl, rfl, rfl⟩
      | false =>
          simp only [predictFarmerBody, Bool.false_eq_true, if_false] at h
          split at h
          · exact Or.inr (farmerStructuredError_ok_shape _ _ h)
          · exact absurd h (by simp)

/-- C8: every result object of the pipeline is exactly one of the two
variants: when `success` is true the error key is absent and the yield
fields (`predictedYield`, `confidence`, `unit`) are all present; when
`success` is false an error message is present, `predictedYield` is null or
absent, and the yield metadata fields are absent. -/
theorem result_variants_exclusive (data : InputRecord) (t : Transport) :
    ((predictYieldFarmerFriendly data t).result.success = true →
      (predictYieldFarmerFriendly data t).result.error = none ∧
      (predictYieldFarmerFriendly data t).result.predictedYield.isSome = true ∧
      (predictYieldFarmerFriendly data t).result.confidence.isSome = true ∧
      (predictYieldFarmerFriendly data t).result.unit.isSome = true) ∧
    ((predictYieldFarmerFriendly data t).result.success = false →
      (predictYieldFarmerFriendly data t).result.error.isSome = true ∧
      ((predictYieldFarmerFriendly data t).result.predictedYield = none ∨
       (predictYieldFarmerFriendly data t).result.predictedYield = some JVal.jsNull) ∧
      (predictYieldFarmerFriendly data t).result.confidence = none ∧
      (predictYieldFarmerFriendly data t).result.unit = none) := by
  by_cases hne : missingFieldsFF data ≠ []
  · simp only [predictYieldFarmerFriendly]
    rw [if_pos hne]
    constructor
    · intro h
      exact absurd h (by simp)
    · intro _
      exact ⟨rfl, Or.inr rfl, rfl, rfl⟩
  · simp only [predictYieldFarmerFriendly]
    rw [if_neg hne]
    cases hb : predictFarmerBody t with
    | ok r =>
        rcases predictFarmerBody_ok_shape t r hb with ⟨h1, h2, h3, h4, h5⟩ | ⟨h1, h2, h3, h4, h5⟩
        · constructor
          · intro _
            exact ⟨h2, h3, h4, h5⟩
          · intro hfalse
            rw [h1] at hfalse
            exact absurd hfalse (by simp)
        · constructor
          · intro htrue
            rw [h1] at htrue
            exact absurd htrue (by simp)
          · intro _
            exact ⟨h2, Or.inl h3, h4, h5⟩
    | error msg =>
        constructor
        · intro h
          exact absurd h (by simp)
        · intro _
          exact ⟨rfl, Or.inr rfl, rfl, rfl⟩

/-- Witness for C8: the exclusivity instantiated on a concrete successful
call, discharging the success-side implication. -/
theorem result_variants_exclusive_witness :
    (predictYieldFarmerFriendly exValidInput
        (.resp true 200 exStringYieldBody)).result.success = true ∧
    (predictYieldFarmerFriendly exValidInput
        (.resp true 200 exStringYieldBody)).result.error = none :=
  ⟨rfl, ((result_variants_exclusive exValidInput
      (.resp true 200 exStringYieldBody)).1 rfl).1⟩

/-- C9: on a 2xx response, each of the two fields is defaulted
independently: whenever the `confidence` field is missing or otherwise falsy
the success result substitutes "high", and whenever the `unit` field is
missing or otherwise falsy it substitutes "hg/ha" — regardless of whether
the other field is present. -/
theorem success_missing_confidence_unit_defaults
    (data : InputRecord) (status : ℕ) (json : JVal)
    (hl : data.location.truthy = true) (hc : data.crop_name.truthy = true) :
    ((json.get "confidence").truthy = false →
      (predictYieldFarmerFriendly data (.resp true status json)).result.confidence
        = some (JVal.str "high")) ∧
    ((json.get "unit").truthy = false →
      (predictYieldFarmerFriendly data (.resp true status json)).result.unit
        = some (JVal.str "hg/ha")) := by
  rw [predictYFF_valid data _ hl hc]
  constructor
  · intro hconf
    show some (jsOr (json.get "confidence") (.str "high")) = some (JVal.str "high")
    simp [jsOr, hconf]
  · intro hunit
    show some (jsOr (json.get "unit") (.str "hg/ha")) = some (JVal.str "hg/ha")
    simp [jsOr, hunit]

/-- Witness for C9: a payload missing only `confidence` (its `unit` present)
gets the confidence default, and a payload with neither field gets the unit
default. -/
theorem success_missing_confidence_unit_defaults_witness :
    (exUnitOnlyBody.get "confidence").truthy = false ∧
    (exUnitOnlyBody.get "unit").truthy = true ∧
    (predictYieldFarmerFriendly exValidInput
        (.resp true 200 exUnitOnlyBody)).result.confidence
      = some (JVal.str "high") ∧
    (predictYieldFarmerFriendly exValidInput
        (.resp true 200 exBareYieldBody)).result.unit
      = some (JVal.str "hg/ha") :=
  ⟨rfl, by decide,
   (success_missing_confidence_unit_defaults exValidInput 200 exUnitOnlyBody
      (by decide) (by decide)).1 rfl,
   (success_missing_confidence_unit_defaults exValidInput 200 exBareYieldBody
      (by decide) (by decide)).2 rfl⟩

/-- C10: for a syntactically valid email that does not occur in the
browser-local `registeredUsers` store, the login validator rejects with the
no-account email error, and the submit handler of the login page therefore
never reaches the backend login call — regardless of what the backend
knows. -/
theorem unregistered_email_never_reaches_backend
    (email password : String) (registeredUsers : List RegisteredUser)
    (hvalid : validateEmail email = true)
    (hunreg : isUserRegistered email registeredUsers = false) :
    (validateLoginForm email password registeredUsers).isValid = false ∧
    (validateLoginForm email password registeredUsers).errors.email
      = some "No account found with this email. Please sign up first." ∧
    handleSubmitIssuesLogin email password registeredUsers = false := by
  have hne : email ≠ "" := by
    intro h
    rw [h] at hvalid
    exact absurd hvalid (by decide)
  simp [validateLoginForm, handleSubmitIssuesLogin, hne, hvalid, hunreg]

/-- Witness for C10: a well-formed email with an empty local registration
store is blocked before any backend call. -/
theorem unregistered_email_never_reaches_backend_witness :
    validateEmail "farmer@example.com" = true ∧
    (validateLoginForm "farmer@example.com" "secret123" []).isValid = false ∧
    (validateLoginForm "farmer@example.com" "secret123" []).errors.email
      = some "No account found with this email. Please sign up first." ∧
    handleSubmitIssuesLogin "farmer@example.com" "secret123" [] = false :=
  have h := unregistered_email_never_reaches_backend "farmer@example.com" "secret123" []
    (by decide) rfl
  ⟨by decide, h.1, h.2.1, h.2.2⟩
